import Mathlib

/-!
# Verification of the compound-interest calculator core

Shallow embedding of `src/compound_interest/calculations.py`,
`src/compound_interest/constants.py` and the original `src/main.py` of the
`compound-interest-calculator` repository.  Python floats are modelled as
exact rationals (the spec fixes only the arithmetic structure, and every
claim under study is about that structure); Python's `round(x, 2)`
(round-half-to-even) is modelled exactly on ℚ; exceptions (`KeyError`,
`ZeroDivisionError`, the `TypeError` raised by `round` on a complex value)
are modelled with `Except`.
-/

namespace CompoundInterest

/-- Python's `round` to the nearest integer, ties to even
(round-half-to-even), on exact rationals. -/
def pyRoundInt (x : ℚ) : ℤ :=
  if x - ⌊x⌋ < 1/2 then ⌊x⌋
  else if 1/2 < x - ⌊x⌋ then ⌊x⌋ + 1
  else if ⌊x⌋ % 2 = 0 then ⌊x⌋ else ⌊x⌋ + 1

/-- Python's `round(x, 2)`: round to 2 decimal places, ties to even. -/
def round2 (x : ℚ) : ℚ := (pyRoundInt (x * 100) : ℚ) / 100

/-- One entry of the `INTERVALS` dict of
`src/compound_interest/constants.py`: the keys `'name'` and `'periods'`. -/
structure IntervalInfo where
  name : String
  periods : ℕ
deriving DecidableEq, Repr

/-- The `INTERVALS` dict of `src/compound_interest/constants.py`;
`none` models a `KeyError` on lookup. -/
def INTERVALS (code : String) : Option IntervalInfo :=
  if code = "D" then some ⟨"Daily", 365⟩
  else if code = "W" then some ⟨"Weekly", 52⟩
  else if code = "M" then some ⟨"Monthly", 12⟩
  else if code = "Y" then some ⟨"Yearly", 1⟩
  else none

/-- One yearly dict emitted by `calculate_compound_interest`: keys
`'Year'`, `'Total Amount'`, `'Total Invested'`, `'Interest Earned'`. -/
structure YearlyRecord where
  year : ℕ
  total_amount : ℚ
  total_invested : ℚ
  interest_earned : ℚ
deriving DecidableEq, Repr

/-- The Python exceptions the embedded code can raise. -/
inductive PyError where
  | keyError
  | zeroDivisionError
  | typeErrorComplexRound
deriving DecidableEq, Repr

/-- One compounding period (body of the inner `for _ in range(...)` loop of
`calculate_compound_interest`): interest accrues on the pre-deposit
balance, the deposit is added, and the invested total is tracked.
State is `(total_amount, total_invested)`. -/
def periodStep (rate_per_period regular_deposit : ℚ) (st : ℚ × ℚ) : ℚ × ℚ :=
  (st.1 * (1 + rate_per_period) + regular_deposit, st.2 + regular_deposit)

/-- One year of the simulation: `intervals_per_year` compounding periods. -/
def runYear (rate_per_period regular_deposit : ℚ) (intervals_per_year : ℕ)
    (st : ℚ × ℚ) : ℚ × ℚ :=
  (periodStep rate_per_period regular_deposit)^[intervals_per_year] st

/-- The dict appended to `data` at the end of each year
(`calculations.py` lines 67-72): amount and invested are rounded to two
decimals, and the interest is `round(total_amount - total_invested, 2)`. -/
def mkRecord (year : ℕ) (st : ℚ × ℚ) : YearlyRecord :=
  { year := year
    total_amount := round2 st.1
    total_invested := round2 st.2
    interest_earned := round2 (st.1 - st.2) }

/-- The outer `for year in range(1, years + 1)` loop of
`calculate_compound_interest` in `calculations.py`: `remaining` years left,
current year index `year`, running state `st`. -/
def simYears (rate_per_period regular_deposit : ℚ) (intervals_per_year : ℕ) :
    ℕ → ℕ → ℚ × ℚ → List YearlyRecord
  | 0, _, _ => []
  | remaining + 1, year, st =>
    let st2 := runYear rate_per_period regular_deposit intervals_per_year st
    mkRecord year st2 ::
      simYears rate_per_period regular_deposit intervals_per_year
        remaining (year + 1) st2

/-- `calculate_compound_interest` of
`src/compound_interest/calculations.py` (lines 11-74): looks up
`INTERVALS[interval]['periods']` once (a `KeyError` for an unknown code),
computes the rate per period, and runs the double loop. -/
def calculate_compound_interest (initial_amount interest_rate : ℚ)
    (years : ℕ) (interval : String) (regular_deposit : ℚ) :
    Except PyError (List YearlyRecord) :=
  match INTERVALS interval with
  | none => Except.error PyError.keyError
  | some info =>
    let intervals_per_year := info.periods
    let rate_per_period := interest_rate / 100 / (intervals_per_year : ℚ)
    Except.ok (simYears rate_per_period regular_deposit intervals_per_year
      years 1 (initial_amount, initial_amount))

/-- The inline `intervals_per_year` dict of `src/main.py` (lines 68-73). -/
def intervals_per_year_dict (code : String) : Option ℕ :=
  if code = "D" then some 365
  else if code = "W" then some 52
  else if code = "M" then some 12
  else if code = "Y" then some 1
  else none

/-- The outer year loop of the original `calculate_compound_interest` in
`src/main.py` (lines 76-88): the dict lookup happens inside the loop body,
so with zero years no lookup occurs; the rate per period is recomputed from
the same expression each period (same value). -/
def mainSimYears (interest_rate regular_deposit : ℚ) (interval : String) :
    ℕ → ℕ → ℚ × ℚ → Except PyError (List YearlyRecord)
  | 0, _, _ => Except.ok []
  | remaining + 1, year, st =>
    match intervals_per_year_dict interval with
    | none => Except.error PyError.keyError
    | some n =>
      let st2 := runYear (interest_rate / 100 / (n : ℚ)) regular_deposit n st
      match mainSimYears interest_rate regular_deposit interval
          remaining (year + 1) st2 with
      | Except.ok rest => Except.ok (mkRecord year st2 :: rest)
      | Except.error e => Except.error e

/-- `calculate_compound_interest` of `src/main.py` (lines 62-90). -/
def main_calculate_compound_interest (initial_amount interest_rate : ℚ)
    (years : ℕ) (interval : String) (regular_deposit : ℚ) :
    Except PyError (List YearlyRecord) :=
  mainSimYears interest_rate regular_deposit interval years 1
    (initial_amount, initial_amount)

/-- The value of the `cagr_percentage` entry.  `exactVal q` is the rounded
value when Python computes it in real (non-complex) closed form with an
integral exponent (`years = 1`, where `ratio ** 1.0 == ratio`);
`rootPow ratio years` stands for the irrational value
`round(((ratio) ** (1/years) - 1) * 100, 2)` that the code produces for a
non-negative `ratio` and `years ≥ 2`, kept symbolic because no claim
depends on its numeric value. -/
inductive CagrVal where
  | exactVal (q : ℚ)
  | rootPow (ratio : ℚ) (years : ℕ)
deriving DecidableEq, Repr

/-- The dict returned by `calculate_summary_statistics`
(`calculations.py` lines 124-132). -/
structure SummaryStats where
  total_invested : ℚ
  total_interest : ℚ
  final_amount : ℚ
  roi_percentage : ℚ
  cagr_percentage : CagrVal
  years : ℕ
  interest_to_investment_ratio : ℚ
deriving DecidableEq, Repr

/-- `calculate_summary_statistics` of
`src/compound_interest/calculations.py` (lines 94-132).  An empty `data`
returns the empty dict (`Except.ok none`).  Otherwise the roi division
raises `ZeroDivisionError` when the final `'Total Invested'` is exactly 0;
then `cagr = (final_amount / total_invested) ** (1 / years)`: for
`years = 1` the exponent is the exact float `1.0` and the power is the
identity, for `years ≥ 2` a negative base makes the float power complex and
`round(cagr, 2)` raises a `TypeError`, while a non-negative base yields the
symbolic `CagrVal.rootPow`. -/
def calculate_summary_statistics (data : List YearlyRecord) :
    Except PyError (Option SummaryStats) :=
  match data.getLast? with
  | none => Except.ok none
  | some final_year =>
    let total_invested := final_year.total_invested
    let total_interest := final_year.interest_earned
    let final_amount := final_year.total_amount
    if total_invested = 0 then Except.error PyError.zeroDivisionError
    else
      let roi := total_interest / total_invested * 100
      let years := data.length
      let ratio := final_amount / total_invested
      if years = 1 then
        Except.ok (some
          { total_invested := total_invested
            total_interest := total_interest
            final_amount := final_amount
            roi_percentage := round2 roi
            cagr_percentage := CagrVal.exactVal (round2 ((ratio - 1) * 100))
            years := years
            interest_to_investment_ratio :=
              round2 (total_interest / total_invested) })
      else if ratio < 0 then Except.error PyError.typeErrorComplexRound
      else
        Except.ok (some
          { total_invested := total_invested
            total_interest := total_interest
            final_amount := final_amount
            roi_percentage := round2 roi
            cagr_percentage := CagrVal.rootPow ratio years
            years := years
            interest_to_investment_ratio :=
              round2 (total_interest / total_invested) })

/-- The state `(total_amount, total_invested)` at the end of year `j` of a
run of `calculate_compound_interest` (before rounding). -/
def yearEndState (initial_amount rate_per_period regular_deposit : ℚ)
    (intervals_per_year : ℕ) (j : ℕ) : ℚ × ℚ :=
  (runYear rate_per_period regular_deposit intervals_per_year)^[j]
    (initial_amount, initial_amount)

/-- Evaluating the `INTERVALS` dict at `'D'`. -/
theorem INTERVALS_D : INTERVALS "D" = some ⟨"Daily", 365⟩ := rfl

/-- Evaluating the `INTERVALS` dict at `'W'`. -/
theorem INTERVALS_W : INTERVALS "W" = some ⟨"Weekly", 52⟩ := rfl

/-- Evaluating the `INTERVALS` dict at `'M'`. -/
theorem INTERVALS_M : INTERVALS "M" = some ⟨"Monthly", 12⟩ := rfl

/-- Evaluating the `INTERVALS` dict at `'Y'`. -/
theorem INTERVALS_Y : INTERVALS "Y" = some ⟨"Yearly", 1⟩ := rfl

/-- An unknown code is a `KeyError` on the `INTERVALS` dict. -/
theorem INTERVALS_eq_none {s : String}
    (h : ¬(s = "D" ∨ s = "W" ∨ s = "M" ∨ s = "Y")) : INTERVALS s = none := by
  unfold INTERVALS
  split_ifs with h1 h2 h3 h4
  · exact absurd (Or.inl h1) h
  · exact absurd (Or.inr (Or.inl h2)) h
  · exact absurd (Or.inr (Or.inr (Or.inl h3))) h
  · exact absurd (Or.inr (Or.inr (Or.inr h4))) h
  · rfl

/-- The year loop emits one record per remaining year. -/
theorem simYears_length (rpp dep : ℚ) (n : ℕ) :
    ∀ (k y : ℕ) (st : ℚ × ℚ), (simYears rpp dep n k y st).length = k
  | 0, _, _ => rfl
  | k + 1, y, st => by
    simp [simYears, simYears_length rpp dep n k]

/-- The `'Year'` fields of the emitted records count up from the starting
year index. -/
theorem simYears_map_year (rpp dep : ℚ) (n : ℕ) :
    ∀ (k y : ℕ) (st : ℚ × ℚ),
      (simYears rpp dep n k y st).map YearlyRecord.year = List.range' y k
  | 0, _, _ => rfl
  | k + 1, y, st => by
    simp [simYears, mkRecord, simYears_map_year rpp dep n k, List.range'_succ]

/-- The record at index `j` is built from the unrounded running state after
`j + 1` years. -/
theorem simYears_getElem? (rpp dep : ℚ) (n : ℕ) :
    ∀ (k j y : ℕ) (st : ℚ × ℚ), j < k →
      (simYears rpp dep n k y st)[j]? =
        some (mkRecord (y + j) ((runYear rpp dep n)^[j + 1] st))
  | 0, j, _, _, h => absurd h (Nat.not_lt_zero j)
  | k + 1, 0, y, st, _ => by
    simp [simYears, Function.iterate_one]
  | k + 1, j + 1, y, st, h => by
    have ih := simYears_getElem? rpp dep n k j (y + 1)
      (runYear rpp dep n st) (by omega)
    simp only [simYears, List.getElem?_cons_succ]
    rw [ih, ← Function.iterate_succ_apply]
    have hy : y + 1 + j = y + (j + 1) := by omega
    rw [hy]

/-- Unpacking a successful run of `calculate_compound_interest`. -/
theorem calc_ok_eq {initial_amount interest_rate regular_deposit : ℚ}
    {years : ℕ} {interval : String} {info : IntervalInfo}
    (hI : INTERVALS interval = some info) {records : List YearlyRecord}
    (hok : calculate_compound_interest initial_amount interest_rate years
      interval regular_deposit = Except.ok records) :
    records = simYears (interest_rate / 100 / (info.periods : ℚ))
      regular_deposit info.periods years 1 (initial_amount, initial_amount) := by
  unfold calculate_compound_interest at hok
  rw [hI] at hok
  simpa using hok.symm

/-- `pyRoundInt` is the identity on integers. -/
theorem pyRoundInt_intCast (k : ℤ) : pyRoundInt (k : ℚ) = k := by
  simp [pyRoundInt]

/-- `round2` is the identity on integers. -/
theorem round2_intCast (k : ℤ) : round2 (k : ℚ) = k := by
  have h : ((k : ℚ) * 100) = ((k * 100 : ℤ) : ℚ) := by push_cast; ring
  rw [round2, h, pyRoundInt_intCast]
  push_cast
  ring

/-- `pyRoundInt` returns the floor or the floor plus one. -/
theorem pyRoundInt_cases (x : ℚ) :
    pyRoundInt x = ⌊x⌋ ∨ pyRoundInt x = ⌊x⌋ + 1 := by
  unfold pyRoundInt
  split_ifs <;> simp

/-- `pyRoundInt` is at least the floor. -/
theorem floor_le_pyRoundInt (x : ℚ) : ⌊x⌋ ≤ pyRoundInt x := by
  rcases pyRoundInt_cases x with h | h <;> omega

/-- `pyRoundInt` is at most the floor plus one. -/
theorem pyRoundInt_le_floor_add_one (x : ℚ) : pyRoundInt x ≤ ⌊x⌋ + 1 := by
  rcases pyRoundInt_cases x with h | h <;> omega

/-- Round-half-to-even to the nearest integer is monotone. -/
theorem pyRoundInt_mono {x y : ℚ} (h : x ≤ y) :
    pyRoundInt x ≤ pyRoundInt y := by
  rcases lt_or_eq_of_le (Int.floor_le_floor h) with hf | hf
  · calc pyRoundInt x ≤ ⌊x⌋ + 1 := pyRoundInt_le_floor_add_one x
      _ ≤ ⌊y⌋ := by omega
      _ ≤ pyRoundInt y := floor_le_pyRoundInt y
  · unfold pyRoundInt
    rw [← hf]
    split_ifs <;> first | omega | (exfalso; linarith)

/-- Rounding to two decimal places is monotone. -/
theorem round2_mono {x y : ℚ} (h : x ≤ y) : round2 x ≤ round2 y := by
  unfold round2
  have h1 := pyRoundInt_mono (by linarith : x * 100 ≤ y * 100)
  have h2 : ((pyRoundInt (x * 100) : ℚ)) ≤ ((pyRoundInt (y * 100) : ℚ)) := by
    exact_mod_cast h1
  linarith

/-- A compounding period keeps the balance non-negative (non-negative rate
and deposit). -/
theorem periodStep_fst_nonneg {rpp dep : ℚ} (hr : 0 ≤ rpp) (hd : 0 ≤ dep)
    {st : ℚ × ℚ} (h : 0 ≤ st.1) : 0 ≤ (periodStep rpp dep st).1 := by
  have hm := mul_nonneg h (by linarith : (0 : ℚ) ≤ 1 + rpp)
  simp only [periodStep]
  linarith

/-- A compounding period does not decrease a non-negative balance. -/
theorem le_periodStep_fst {rpp dep : ℚ} (hr : 0 ≤ rpp) (hd : 0 ≤ dep)
    {st : ℚ × ℚ} (h : 0 ≤ st.1) : st.1 ≤ (periodStep rpp dep st).1 := by
  have hm := mul_nonneg h hr
  simp only [periodStep]
  nlinarith

/-- A compounding period does not decrease the invested total. -/
theorem le_periodStep_snd {rpp dep : ℚ} (hd : 0 ≤ dep) (st : ℚ × ℚ) :
    st.2 ≤ (periodStep rpp dep st).2 := by
  simp only [periodStep]
  linarith

/-- A year of compounding keeps the balance non-negative. -/
theorem runYear_fst_nonneg {rpp dep : ℚ} (hr : 0 ≤ rpp) (hd : 0 ≤ dep) :
    ∀ (n : ℕ) (st : ℚ × ℚ), 0 ≤ st.1 → 0 ≤ (runYear rpp dep n st).1
  | 0, _, h => h
  | n + 1, st, h => by
    rw [runYear, Function.iterate_succ_apply]
    exact runYear_fst_nonneg hr hd n _ (periodStep_fst_nonneg hr hd h)

/-- A year of compounding does not decrease a non-negative balance. -/
theorem le_runYear_fst {rpp dep : ℚ} (hr : 0 ≤ rpp) (hd : 0 ≤ dep) :
    ∀ (n : ℕ) (st : ℚ × ℚ), 0 ≤ st.1 → st.1 ≤ (runYear rpp dep n st).1
  | 0, _, _ => le_refl _
  | n + 1, st, h => by
    rw [runYear, Function.iterate_succ_apply]
    calc st.1 ≤ (periodStep rpp dep st).1 := le_periodStep_fst hr hd h
      _ ≤ _ := le_runYear_fst hr hd n _ (periodStep_fst_nonneg hr hd h)

/-- A year of compounding does not decrease the invested total. -/
theorem le_runYear_snd {rpp dep : ℚ} (hd : 0 ≤ dep) :
    ∀ (n : ℕ) (st : ℚ × ℚ), st.2 ≤ (runYear rpp dep n st).2
  | 0, _ => le_refl _
  | n + 1, st => by
    rw [runYear, Function.iterate_succ_apply]
    calc st.2 ≤ (periodStep rpp dep st).2 := le_periodStep_snd hd st
      _ ≤ _ := le_runYear_snd hd n _

/-- The balance stays non-negative across whole years. -/
theorem iterate_runYear_fst_nonneg {rpp dep : ℚ} (hr : 0 ≤ rpp)
    (hd : 0 ≤ dep) (n : ℕ) :
    ∀ (j : ℕ) (st : ℚ × ℚ), 0 ≤ st.1 →
      0 ≤ ((runYear rpp dep n)^[j] st).1
  | 0, _, h => h
  | j + 1, st, h => by
    rw [Function.iterate_succ_apply]
    exact iterate_runYear_fst_nonneg hr hd n j _ (runYear_fst_nonneg hr hd n st h)

/-- The inline dict of `main.py` agrees with the `'periods'` entries of the
`INTERVALS` dict of `constants.py`, on every string. -/
theorem intervals_per_year_dict_eq (s : String) :
    intervals_per_year_dict s = (INTERVALS s).map IntervalInfo.periods := by
  unfold intervals_per_year_dict INTERVALS
  split_ifs <;> rfl

/-- On a known interval code, the year loop of `main.py` computes the same
record list as the refactored `simYears` loop. -/
theorem mainSimYears_eq (interest_rate regular_deposit : ℚ)
    (interval : String) (info : IntervalInfo)
    (hI : INTERVALS interval = some info) :
    ∀ (k y : ℕ) (st : ℚ × ℚ),
      mainSimYears interest_rate regular_deposit interval k y st =
        Except.ok (simYears (interest_rate / 100 / (info.periods : ℚ))
          regular_deposit info.periods k y st)
  | 0, _, _ => rfl
  | k + 1, y, st => by
    have hn : intervals_per_year_dict interval = some info.periods := by
      rw [intervals_per_year_dict_eq, hI]; rfl
    have ih := mainSimYears_eq interest_rate regular_deposit interval info hI
      k (y + 1) (runYear (interest_rate / 100 / (info.periods : ℚ))
        regular_deposit info.periods st)
    simp only [mainSimYears, hn, ih, simYears]

/-- Rounding of an integer number of units, stated for numerals. -/
theorem round2_ofNat (n : ℕ) : round2 (n : ℚ) = (n : ℚ) := by
  have h := round2_intCast (n : ℤ)
  push_cast at h
  exact h

/-- One concrete run used by several witnesses:
$1000 at 5% for one year, yearly compounding, no deposits. -/
theorem eval_basic_run :
    calculate_compound_interest 1000 5 1 "Y" 0 =
      Except.ok [⟨1, 1050, 1000, 50⟩] := by
  have h1 : round2 1050 = 1050 := by
    have := round2_ofNat 1050; norm_num at this; exact this
  have h2 : round2 1000 = 1000 := by
    have := round2_ofNat 1000; norm_num at this; exact this
  have h3 : round2 50 = 50 := by
    have := round2_ofNat 50; norm_num at this; exact this
  norm_num [calculate_compound_interest, INTERVALS_Y, simYears, runYear,
    periodStep, mkRecord, Function.iterate_one, h1, h2, h3]

/-- A concrete two-year run used by witnesses: $1000 at 0% for two years,
yearly compounding, $100 deposits. -/
theorem eval_two_year_run :
    calculate_compound_interest 1000 0 2 "Y" 100 =
      Except.ok [⟨1, 1100, 1100, 0⟩, ⟨2, 1200, 1200, 0⟩] := by
  have h1 : round2 1100 = 1100 := by
    have := round2_ofNat 1100; norm_num at this; exact this
  have h2 : round2 1200 = 1200 := by
    have := round2_ofNat 1200; norm_num at this; exact this
  have h3 : round2 0 = 0 := by
    have := round2_ofNat 0; norm_num at this; exact this
  norm_num [calculate_compound_interest, INTERVALS_Y, simYears, runYear,
    periodStep, mkRecord, Function.iterate_one, h1, h2, h3]

/-- A valid interval code has an entry in the `INTERVALS` dict. -/
theorem exists_interval_info {s : String}
    (h : s = "D" ∨ s = "W" ∨ s = "M" ∨ s = "Y") :
    ∃ info, INTERVALS s = some info := by
  rcases h with h | h | h | h <;> subst h <;> exact ⟨_, rfl⟩

/-- A successful indexed access is within bounds. -/
theorem getElem?_lt_length {α : Type} {l : List α} {j : ℕ} {r : α}
    (h : l[j]? = some r) : j < l.length := by
  by_contra hc
  rw [List.getElem?_eq_none (by omega)] at h
  exact Option.noConfusion h

/-- Claim C2 (corrected), counterexample: called on an empty record list,
`calculate_summary_statistics` does not signal any error (in particular no
`EmptyInput`-style failure): it is not equal to any of the possible error
outcomes. -/
theorem summary_empty_not_error_cx :
    calculate_summary_statistics [] ≠ Except.error PyError.keyError ∧
    calculate_summary_statistics [] ≠ Except.error PyError.zeroDivisionError ∧
    calculate_summary_statistics [] ≠
      Except.error PyError.typeErrorComplexRound := by
  refine ⟨?_, ?_, ?_⟩ <;> simp [calculate_summary_statistics]

/-- Claim C2 (corrected), amended: called with an empty record sequence,
`calculate_summary_statistics` returns the empty dict (`Except.ok none`)
rather than signaling an error. -/
theorem summary_empty_returns_empty_dict :
    calculate_summary_statistics [] = Except.ok none := rfl

/-- Claim C3: for a non-empty record sequence whose final record has
`'Total Invested' = 0`, `calculate_summary_statistics` raises the
division-by-zero error at the roi computation, hence returns no result at
all (so no returned `roi_percentage`, `cagr_percentage` or
`interest_to_investment_ratio` can be infinite or NaN). -/
theorem summary_zero_invested_division_error (data : List YearlyRecord)
    (r : YearlyRecord) (hlast : data.getLast? = some r)
    (hz : r.total_invested = 0) :
    calculate_summary_statistics data =
      Except.error PyError.zeroDivisionError := by
  simp [calculate_summary_statistics, hlast, hz]

/-- Witness for C3 at the one-record list with zero invested total. -/
theorem summary_zero_invested_division_error_witness :
    ([⟨1, 0, 0, 0⟩] : List YearlyRecord).getLast? = some ⟨1, 0, 0, 0⟩ ∧
    (⟨1, 0, 0, 0⟩ : YearlyRecord).total_invested = 0 ∧
    calculate_summary_statistics [⟨1, 0, 0, 0⟩] =
      Except.error PyError.zeroDivisionError :=
  ⟨rfl, rfl, summary_zero_invested_division_error _ _ rfl rfl⟩

/-- Claim C6: the known numeric scenario
`calculate_compound_interest(1000, 5, 1, 'Y', 0)` yields exactly one
record, with total amount 1050.00, total invested 1000.00 and interest
earned 50.00. -/
theorem sim_known_scenario_1000_5_1_Y_0 :
    calculate_compound_interest 1000 5 1 "Y" 0 =
      Except.ok [⟨1, 1050, 1000, 50⟩] := eval_basic_run

/-- Claim C8: `calculate_summary_statistics` reads only the last record
and the length of its (immutable, purely functional) argument: any two
inputs agreeing on those produce identical results. -/
theorem summary_reads_only_last_and_length (d1 d2 : List YearlyRecord)
    (h1 : d1.getLast? = d2.getLast?) (h2 : d1.length = d2.length) :
    calculate_summary_statistics d1 = calculate_summary_statistics d2 := by
  unfold calculate_summary_statistics
  rw [h1, h2]

/-- Witness for C8 at two lists agreeing on last record and length. -/
theorem summary_reads_only_last_and_length_witness :
    ([⟨1, 1, 1, 0⟩, ⟨2, 7, 7, 0⟩] : List YearlyRecord).getLast? =
      ([⟨5, 9, 9, 9⟩, ⟨2, 7, 7, 0⟩] : List YearlyRecord).getLast? ∧
    ([⟨1, 1, 1, 0⟩, ⟨2, 7, 7, 0⟩] : List YearlyRecord).length =
      ([⟨5, 9, 9, 9⟩, ⟨2, 7, 7, 0⟩] : List YearlyRecord).length ∧
    calculate_summary_statistics [⟨1, 1, 1, 0⟩, ⟨2, 7, 7, 0⟩] =
      calculate_summary_statistics [⟨5, 9, 9, 9⟩, ⟨2, 7, 7, 0⟩] :=
  ⟨rfl, rfl, summary_reads_only_last_and_length _ _ rfl rfl⟩

/-- Claim C9: on every valid interval code (and any year count, including
zero), the original `calculate_compound_interest` of `main.py` and the
refactored one of `calculations.py` return identical record sequences. -/
theorem main_refactor_equivalent (initial_amount interest_rate
    regular_deposit : ℚ) (years : ℕ) (interval : String)
    (h : interval = "D" ∨ interval = "W" ∨ interval = "M" ∨ interval = "Y") :
    main_calculate_compound_interest initial_amount interest_rate years
        interval regular_deposit =
      calculate_compound_interest initial_amount interest_rate years
        interval regular_deposit := by
  obtain ⟨info, hinfo⟩ := exists_interval_info h
  unfold main_calculate_compound_interest calculate_compound_interest
  rw [mainSimYears_eq interest_rate regular_deposit interval info hinfo,
    hinfo]

/-- Witness for C9 at a concrete valid input. -/
theorem main_refactor_equivalent_witness :
    ("Y" = "D" ∨ "Y" = "W" ∨ "Y" = "M" ∨ ("Y" : String) = "Y") ∧
    main_calculate_compound_interest 1000 5 2 "Y" 10 =
      calculate_compound_interest 1000 5 2 "Y" 10 :=
  ⟨Or.inr (Or.inr (Or.inr rfl)),
    main_refactor_equivalent 1000 5 10 2 "Y" (Or.inr (Or.inr (Or.inr rfl)))⟩

/-- Claim C10: the `INTERVALS` lookup succeeds exactly on the four codes,
yielding 365, 52, 12 and 1 periods per year; on any other string,
`calculate_compound_interest` fails with the key-lookup error and emits no
record. -/
theorem intervals_lookup_spec (initial_amount interest_rate
    regular_deposit : ℚ) (years : ℕ) (s : String)
    (h : ¬(s = "D" ∨ s = "W" ∨ s = "M" ∨ s = "Y")) :
    ((INTERVALS "D").map IntervalInfo.periods = some 365 ∧
     (INTERVALS "W").map IntervalInfo.periods = some 52 ∧
     (INTERVALS "M").map IntervalInfo.periods = some 12 ∧
     (INTERVALS "Y").map IntervalInfo.periods = some 1) ∧
    calculate_compound_interest initial_amount interest_rate years s
      regular_deposit = Except.error PyError.keyError := by
  refine ⟨⟨rfl, rfl, rfl, rfl⟩, ?_⟩
  unfold calculate_compound_interest
  rw [INTERVALS_eq_none h]

/-- Witness for C10 at the unknown code `'X'`. -/
theorem intervals_lookup_spec_witness :
    ¬(("X" : String) = "D" ∨ ("X" : String) = "W" ∨ ("X" : String) = "M" ∨
        ("X" : String) = "Y") ∧
    (((INTERVALS "D").map IntervalInfo.periods = some 365 ∧
      (INTERVALS "W").map IntervalInfo.periods = some 52 ∧
      (INTERVALS "M").map IntervalInfo.periods = some 12 ∧
      (INTERVALS "Y").map IntervalInfo.periods = some 1) ∧
     calculate_compound_interest 1 2 3 "X" 4 =
       Except.error PyError.keyError) :=
  ⟨by simp, intervals_lookup_spec 1 2 4 3 "X" (by simp)⟩

/-- Claim C4: for every input satisfying the preconditions, the simulation
returns exactly `years` records whose `'Year'` fields are `1, 2, ...,
years` in ascending order. -/
theorem sim_length_and_year_fields (initial_amount interest_rate
    regular_deposit : ℚ) (years : ℕ) (interval : String)
    (records : List YearlyRecord)
    (h0 : 0 ≤ initial_amount) (hr0 : 0 ≤ interest_rate)
    (hr1 : interest_rate ≤ 100) (hy1 : 1 ≤ years) (hy2 : years ≤ 100)
    (hIv : interval = "D" ∨ interval = "W" ∨ interval = "M" ∨ interval = "Y")
    (hd : 0 ≤ regular_deposit)
    (hok : calculate_compound_interest initial_amount interest_rate years
      interval regular_deposit = Except.ok records) :
    records.length = years ∧
      records.map YearlyRecord.year = List.range' 1 years := by
  obtain ⟨info, hinfo⟩ := exists_interval_info hIv
  rw [calc_ok_eq hinfo hok]
  exact ⟨simYears_length _ _ _ _ _ _, simYears_map_year _ _ _ _ _ _⟩

/-- Witness for C4 at a concrete valid input. -/
theorem sim_length_and_year_fields_witness :
    calculate_compound_interest 1000 5 1 "Y" 0 =
      Except.ok [⟨1, 1050, 1000, 50⟩] ∧
    (([⟨1, 1050, 1000, 50⟩] : List YearlyRecord).length = 1 ∧
      ([⟨1, 1050, 1000, 50⟩] : List YearlyRecord).map YearlyRecord.year =
        List.range' 1 1) :=
  ⟨eval_basic_run,
    sim_length_and_year_fields 1000 5 0 1 "Y" [⟨1, 1050, 1000, 50⟩]
      (by norm_num) (by norm_num) (by norm_num) (by norm_num) (by norm_num)
      (Or.inr (Or.inr (Or.inr rfl))) (by norm_num) eval_basic_run⟩

/-- Claim C5: for every input satisfying the preconditions (which include
a non-negative rate and deposit), consecutive records have non-decreasing
`'Total Invested'` and non-decreasing `'Total Amount'`. -/
theorem sim_monotone_invested_amount (initial_amount interest_rate
    regular_deposit : ℚ) (years j : ℕ) (interval : String)
    (records : List YearlyRecord) (r r' : YearlyRecord)
    (h0 : 0 ≤ initial_amount) (hr0 : 0 ≤ interest_rate)
    (hr1 : interest_rate ≤ 100) (hy1 : 1 ≤ years) (hy2 : years ≤ 100)
    (hIv : interval = "D" ∨ interval = "W" ∨ interval = "M" ∨ interval = "Y")
    (hd : 0 ≤ regular_deposit)
    (hok : calculate_compound_interest initial_amount interest_rate years
      interval regular_deposit = Except.ok records)
    (hj : records[j]? = some r) (hj' : records[j + 1]? = some r') :
    r.total_invested ≤ r'.total_invested ∧
      r.total_amount ≤ r'.total_amount := by
  obtain ⟨info, hinfo⟩ := exists_interval_info hIv
  have hrec := calc_ok_eq hinfo hok
  subst hrec
  have hlt' : j + 1 < years := by
    have h := getElem?_lt_length hj'
    rwa [simYears_length] at h
  rw [simYears_getElem? _ _ _ years j 1 _ (by omega)] at hj
  rw [simYears_getElem? _ _ _ years (j + 1) 1 _ (by omega)] at hj'
  have hr := Option.some.inj hj
  have hr' := Option.some.inj hj'
  subst hr
  subst hr'
  have hrpp : 0 ≤ interest_rate / 100 / (info.periods : ℚ) :=
    div_nonneg (div_nonneg hr0 (by norm_num)) (Nat.cast_nonneg _)
  have hs2 : (runYear (interest_rate / 100 / (info.periods : ℚ))
        regular_deposit info.periods)^[j + 1 + 1]
        (initial_amount, initial_amount) =
      runYear (interest_rate / 100 / (info.periods : ℚ)) regular_deposit
        info.periods
        ((runYear (interest_rate / 100 / (info.periods : ℚ))
          regular_deposit info.periods)^[j + 1]
          (initial_amount, initial_amount)) :=
    Function.iterate_succ_apply' _ _ _
  have hpos : 0 ≤ ((runYear (interest_rate / 100 / (info.periods : ℚ))
      regular_deposit info.periods)^[j + 1]
      (initial_amount, initial_amount)).1 :=
    iterate_runYear_fst_nonneg hrpp hd info.periods (j + 1) _ h0
  constructor
  · show round2 _ ≤ round2 _
    rw [hs2]
    exact round2_mono (le_runYear_snd hd info.periods _)
  · show round2 _ ≤ round2 _
    rw [hs2]
    exact round2_mono (le_runYear_fst hrpp hd info.periods _ hpos)

/-- Witness for C5 at a concrete two-year run. -/
theorem sim_monotone_invested_amount_witness :
    calculate_compound_interest 1000 0 2 "Y" 100 =
      Except.ok [⟨1, 1100, 1100, 0⟩, ⟨2, 1200, 1200, 0⟩] ∧
    ((1100 : ℚ) ≤ 1200 ∧ (1100 : ℚ) ≤ 1200) :=
  ⟨eval_two_year_run,
    sim_monotone_invested_amount 1000 0 100 2 0 "Y"
      [⟨1, 1100, 1100, 0⟩, ⟨2, 1200, 1200, 0⟩] ⟨1, 1100, 1100, 0⟩
      ⟨2, 1200, 1200, 0⟩ (by norm_num) (by norm_num) (by norm_num)
      (by norm_num) (by norm_num) (Or.inr (Or.inr (Or.inr rfl)))
      (by norm_num) eval_two_year_run rfl rfl⟩

/-- Claim C1 (corrected), counterexample: on the valid input
`(0.003, 100, 1, 'Y', 0)` the emitted record is
`{Year 1, Total Amount 0.01, Total Invested 0.00, Interest Earned 0.00}`:
the stored interest (0.00) is `round(0.006 - 0.003, 2)` and differs from
`round(0.006, 2) - round(0.003, 2) = 0.01 - 0.00`, refuting the claimed
round-then-subtract computation. -/
theorem interest_not_difference_of_rounded_cx :
    calculate_compound_interest (3/1000) 100 1 "Y" 0 =
      Except.ok [⟨1, 1/100, 0, 0⟩] ∧ ((0 : ℚ) ≠ 1/100 - 0) := by
  constructor
  · have hA : round2 (3/500) = 1/100 := by
      have hf : ⌊(3 : ℚ)/500 * 100⌋ = 0 := by
        rw [Int.floor_eq_iff]
        norm_num
      rw [round2, pyRoundInt, hf]
      norm_num
    have hB : round2 (3/1000) = 0 := by
      have hf : ⌊(3 : ℚ)/1000 * 100⌋ = 0 := by
        rw [Int.floor_eq_iff]
        norm_num
      rw [round2, pyRoundInt, hf]
      norm_num
    have hC : round2 (3/500 - 3/1000) = 0 := by
      have hd : (3 : ℚ)/500 - 3/1000 = 3/1000 := by norm_num
      rw [hd, hB]
    norm_num [calculate_compound_interest, INTERVALS_Y, simYears, runYear,
      periodStep, mkRecord, Function.iterate_one, hA, hB, hC]
  · norm_num

/-- Claim C1 (corrected), amended: in every emitted record the stored
`'Total Amount'` and `'Total Invested'` are the rounded year-end balance
and invested total, and `'Interest Earned'` is the rounding of their
UNROUNDED difference (subtract first, then round once). -/
theorem interest_earned_rounds_unrounded_difference (initial_amount
    interest_rate regular_deposit : ℚ) (years j : ℕ) (interval : String)
    (info : IntervalInfo) (records : List YearlyRecord) (r : YearlyRecord)
    (hinfo : INTERVALS interval = some info)
    (hok : calculate_compound_interest initial_amount interest_rate years
      interval regular_deposit = Except.ok records)
    (hj : records[j]? = some r) :
    r.total_amount = round2 (yearEndState initial_amount
      (interest_rate / 100 / (info.periods : ℚ)) regular_deposit
      info.periods (j + 1)).1 ∧
    r.total_invested = round2 (yearEndState initial_amount
      (interest_rate / 100 / (info.periods : ℚ)) regular_deposit
      info.periods (j + 1)).2 ∧
    r.interest_earned = round2 ((yearEndState initial_amount
      (interest_rate / 100 / (info.periods : ℚ)) regular_deposit
      info.periods (j + 1)).1 - (yearEndState initial_amount
      (interest_rate / 100 / (info.periods : ℚ)) regular_deposit
      info.periods (j + 1)).2) := by
  have hrec := calc_ok_eq hinfo hok
  subst hrec
  have hlt : j < years := by
    have h := getElem?_lt_length hj
    rwa [simYears_length] at h
  rw [simYears_getElem? _ _ _ years j 1 _ hlt] at hj
  have hr := Option.some.inj hj
  subst hr
  exact ⟨rfl, rfl, rfl⟩

/-- Witness for the amended C1 at a concrete input. -/
theorem interest_earned_rounds_unrounded_difference_witness :
    calculate_compound_interest 1000 5 1 "Y" 0 =
      Except.ok [⟨1, 1050, 1000, 50⟩] ∧
    ((1050 : ℚ) = round2 (yearEndState 1000 (5 / 100 / ((1 : ℕ) : ℚ)) 0 1
        (0 + 1)).1 ∧
     (1000 : ℚ) = round2 (yearEndState 1000 (5 / 100 / ((1 : ℕ) : ℚ)) 0 1
        (0 + 1)).2 ∧
     (50 : ℚ) = round2 ((yearEndState 1000 (5 / 100 / ((1 : ℕ) : ℚ)) 0 1
        (0 + 1)).1 - (yearEndState 1000 (5 / 100 / ((1 : ℕ) : ℚ)) 0 1
        (0 + 1)).2)) :=
  ⟨eval_basic_run,
    interest_earned_rounds_unrounded_difference 1000 5 0 1 0 "Y"
      ⟨"Yearly", 1⟩ [⟨1, 1050, 1000, 50⟩] ⟨1, 1050, 1000, 50⟩ INTERVALS_Y
      eval_basic_run rfl⟩

/-- Claim C7 (corrected), counterexample: on a single record whose
amount-to-invested ratio is negative, `calculate_summary_statistics`
returns a normal result (the exponent `1/years` is the exact float `1.0`,
so no complex value ever arises) instead of signaling an error. -/
theorem summary_negative_ratio_no_error_cx :
    calculate_summary_statistics [⟨1, -100, 100, -200⟩] =
      Except.ok (some ⟨100, -200, -100, -200,
        CagrVal.exactVal (-200), 1, -2⟩) ∧
    calculate_summary_statistics [⟨1, -100, 100, -200⟩] ≠
      Except.error PyError.keyError ∧
    calculate_summary_statistics [⟨1, -100, 100, -200⟩] ≠
      Except.error PyError.zeroDivisionError ∧
    calculate_summary_statistics [⟨1, -100, 100, -200⟩] ≠
      Except.error PyError.typeErrorComplexRound := by
  have hA : round2 (-200 : ℚ) = -200 := by
    have h := round2_intCast (-200)
    push_cast at h
    exact h
  have hB : round2 (-2 : ℚ) = -2 := by
    have h := round2_intCast (-2)
    push_cast at h
    exact h
  have hmain : calculate_summary_statistics [⟨1, -100, 100, -200⟩] =
      Except.ok (some ⟨100, -200, -100, -200,
        CagrVal.exactVal (-200), 1, -2⟩) := by
    norm_num [calculate_summary_statistics, hA, hB]
  refine ⟨hmain, ?_, ?_, ?_⟩ <;> rw [hmain] <;> simp

/-- Claim C7 (corrected), amended: the code has no guard on the sign of
`final_amount / total_invested`.  With a single record the exponent is the
integral float `1.0` and the function returns a normal (real) result even
for a negative ratio; only with two or more records does the fractional
power of a negative ratio become complex, whereupon `round` raises a
`TypeError`. -/
theorem summary_negative_ratio_behavior (data : List YearlyRecord)
    (r : YearlyRecord) (hlast : data.getLast? = some r)
    (hnz : r.total_invested ≠ 0)
    (hneg : r.total_amount / r.total_invested < 0) :
    (data.length = 1 →
      calculate_summary_statistics data = Except.ok (some
        { total_invested := r.total_invested
          total_interest := r.interest_earned
          final_amount := r.total_amount
          roi_percentage :=
            round2 (r.interest_earned / r.total_invested * 100)
          cagr_percentage := CagrVal.exactVal
            (round2 ((r.total_amount / r.total_invested - 1) * 100))
          years := 1
          interest_to_investment_ratio :=
            round2 (r.interest_earned / r.total_invested) })) ∧
    (2 ≤ data.length →
      calculate_summary_statistics data =
        Except.error PyError.typeErrorComplexRound) := by
  constructor
  · intro h1
    simp [calculate_summary_statistics, hlast, hnz, h1]
  · intro h2
    have hne : ¬(data.length = 1) := by omega
    simp [calculate_summary_statistics, hlast, hnz, hne, hneg]

/-- Witness for the amended C7 at a concrete two-record input. -/
theorem summary_negative_ratio_behavior_witness :
    ([⟨1, -100, 100, -200⟩, ⟨2, -100, 100, -200⟩] :
        List YearlyRecord).getLast? = some ⟨2, -100, 100, -200⟩ ∧
    ((100 : ℚ) ≠ 0) ∧ ((-100 : ℚ)/100 < 0) ∧
    calculate_summary_statistics
        [⟨1, -100, 100, -200⟩, ⟨2, -100, 100, -200⟩] =
      Except.error PyError.typeErrorComplexRound :=
  ⟨rfl, by norm_num, by norm_num,
    (summary_negative_ratio_behavior
      [⟨1, -100, 100, -200⟩, ⟨2, -100, 100, -200⟩] ⟨2, -100, 100, -200⟩
      rfl (by norm_num) (by norm_num)).2 (by simp)⟩

end CompoundInterest
